import Mathlib

/-!
Verification of the fheroes2 skill/spell core (src/fheroes2/heroes/skill.cpp and
src/fheroes2/spell/spell.cpp) against its natural-language specification.

The mutable `Skill::SecSkills` container (a `std::vector<Skill::Secondary>`) is embedded
as a `List Sec`; each C++ member function becomes a Lean function on that list.
Machine integers (`int`) are embedded as `ℤ`; the enum values for secondary-skill kinds
(`Secondary::UNKNOWN = 0`, the 28 kinds `1..28`) and levels
(`Level::NONE = 0`, `BASIC = 1`, `ADVANCED = 2`, `EXPERT = 3`) follow the declaration
order used by the `secskills` array and the `GetName` index arithmetic
`(Level() - 1) + (Skill() - 1) * 3` in skill.cpp.
-/

namespace FH

/-- Embeds `HEROESMAXSKILL`: capacity of a hero's secondary-skill roster (spec §3: exactly 8). -/
def HEROESMAXSKILL : Nat := 8

/-- Embeds `MAXSECONDARYSKILL`: the largest secondary-skill enumerant (28 kinds). -/
def MAXSECONDARYSKILL : ℤ := 28

/-- Embeds `Skill::Secondary`: a pair (skill kind, level), both C++ `int`.
A default-constructed value is `(UNKNOWN, Level::NONE) = (0, 0)`. -/
structure Sec where
  kind : ℤ
  level : ℤ
deriving DecidableEq, Repr

/-- The default-constructed `Skill::Secondary()` — the empty-slot sentinel. -/
def Sec.empty : Sec := ⟨0, 0⟩

/-- Embeds `Skill::Secondary::isValid`: kind ≠ UNKNOWN and level ≠ NONE. -/
def Sec.isValid (e : Sec) : Bool := e.kind != 0 && e.level != 0

/-- Embeds `Skill::Secondary::SetSkill`: clamp the kind into `[UNKNOWN, MAXSECONDARYSKILL]`,
out-of-range values become `UNKNOWN`. -/
def Sec.setSkill (e : Sec) (s : ℤ) : Sec :=
  { e with kind := if 0 ≤ s ∧ s ≤ MAXSECONDARYSKILL then s else 0 }

/-- Embeds `Skill::Secondary::SetLevel`: clamp the level into `[NONE, EXPERT]`,
out-of-range values become `NONE`. -/
def Sec.setLevel (e : Sec) (l : ℤ) : Sec :=
  { e with level := if 0 ≤ l ∧ l ≤ 3 then l else 0 }

/-- Embeds `Skill::Secondary::NextLevel`: NONE→BASIC→ADVANCED→EXPERT, saturating at EXPERT. -/
def Sec.nextLevel (e : Sec) : Sec :=
  if e.level = 0 then { e with level := 1 }
  else if e.level = 1 then { e with level := 2 }
  else if e.level = 2 then { e with level := 3 }
  else e

/-- The `secskills` array from skill.cpp: all 28 secondary-skill kinds in declaration
order (PATHFINDING = 1 … WATERMAGIC = 28). -/
def secskills : List ℤ :=
  [1, 2, 3, 4, 5, 6, 7, 8, 9, 10, 11, 12, 13, 14,
   15, 16, 17, 18, 19, 20, 21, 22, 23, 24, 25, 26, 27, 28]

/-- The state of a `Skill::SecSkills` container: its underlying entry sequence. -/
abbrev SkillState := List Sec

/-- Embeds `Skill::SecSkills::GetLevel`: level of the first entry of the given kind,
`Level::NONE` when absent (a `find_if` scan). -/
def getLevel (s : SkillState) (k : ℤ) : ℤ :=
  match s.find? (fun e => e.kind == k) with
  | some e => e.level
  | none => 0

/-- Embeds `Skill::SecSkills::Count`: number of valid entries (a `count_if` scan). -/
def countValid (s : SkillState) : Nat :=
  (s.filter (fun e => e.isValid)).length

/-- Replace the first entry satisfying `p` by its image under `f`
(the effect of a `find_if` scan followed by a write through the iterator). -/
def updateFirst (p : Sec → Bool) (f : Sec → Sec) : SkillState → SkillState
  | [] => []
  | e :: t => if p e then f e :: t else e :: updateFirst p f t

/-- Embeds `Skill::SecSkills::AddSkill`: no-op on an invalid entry; overwrite the level of an
existing entry of the same kind; otherwise occupy the first empty (invalid) slot;
otherwise append while below capacity; otherwise silently drop. -/
def addSkill (s : SkillState) (sk : Sec) : SkillState :=
  if sk.isValid then
    if s.any (fun e => e.kind == sk.kind) then
      updateFirst (fun e => e.kind == sk.kind) (fun e => e.setLevel sk.level) s
    else if s.any (fun e => !e.isValid) then
      updateFirst (fun e => !e.isValid) (fun _ => sk) s
    else if s.length < HEROESMAXSKILL then s ++ [sk]
    else s
  else s

/-- Embeds `Skill::SecSkills::FillMax`: `resize(HEROESMAXSKILL, skill)` when below capacity —
pads the sequence up to 8 slots with copies of `sk`. -/
def fillMax (s : SkillState) (sk : Sec) : SkillState :=
  if s.length < HEROESMAXSKILL then s ++ List.replicate (HEROESMAXSKILL - s.length) sk
  else s

/-- A mutation of the skill container: an `AddSkill` or a `FillMax` call. -/
inductive SkillOp where
  | add : Sec → SkillOp
  | fill : Sec → SkillOp
deriving DecidableEq, Repr

/-- Whether an operation is an `AddSkill` call. -/
def SkillOp.isAdd : SkillOp → Bool
  | .add _ => true
  | .fill _ => false

/-- Apply one mutation to a skill state. -/
def applyOp (s : SkillState) : SkillOp → SkillState
  | .add sk => addSkill s sk
  | .fill sk => fillMax s sk

/-- Run a sequence of mutations from the empty state (`SecSkills()` default ctor). -/
def runOps (ops : List SkillOp) : SkillState :=
  ops.foldl applyOp []

/-- The duplicate-freedom invariant: no two valid entries share a skill kind. -/
def uniqueValidKinds (s : SkillState) : Prop :=
  ((s.filter (fun e => e.isValid)).map Sec.kind).Nodup

instance uniqueValidKindsDec (s : SkillState) : Decidable (uniqueValidKinds s) := by
  unfold uniqueValidKinds; infer_instance

/-- Modelled from the spec: the cumulative-weight scan of the WeightedSelector
(`Rand::Queue`, whose source rand.cpp is not part of this excerpt) — walk the entries,
subtracting each weight from the mapped position until it falls inside an entry's
weight span; zero-weight entries are skipped by the scan. -/
def pickLoop : List (ℤ × Nat) → Nat → ℤ
  | [], _ => 0
  | (v, wt) :: t, r => if r < wt then v else pickLoop t (r - wt)

/-- Modelled from the spec: `Rand::Queue::GetWithSeed` (WeightedSelector, §4.1) — compute
the total weight, map the seed into `[0, totalWeight)` and return the first entry whose
cumulative weight exceeds the mapped value; if every weight is zero (or no entry exists)
return the `UNKNOWN = 0` sentinel. -/
def weightedPick (entries : List (ℤ × Nat)) (seed : Nat) : ℤ :=
  let total := (entries.map Prod.snd).sum
  if total = 0 then 0 else pickLoop entries (seed % total)

/-- Embeds `Skill::SecondaryPriorityFromRace`: push every kind of `secskills` that is not in
`exclude` with its per-race weight (zero-weight pushes are dropped, as the spec requires
zero-weight items never to be chosen), then draw with the seed; an empty queue yields
`Secondary::UNKNOWN`. The external per-race weight table `SecondaryGetWeightSkillFromRace`
is abstracted as the function `w`. -/
def secondaryPriorityFromRace (w : ℤ → Nat) (exclude : List ℤ) (seed : Nat) : ℤ :=
  let parts := ((secskills.filter (fun k => decide (k ∉ exclude))).filter
      (fun k => w k != 0)).map (fun k => (k, w k))
  if parts.isEmpty then 0 else weightedPick parts seed

/-- The exclusion list built by `Skill::SecSkills::FindSkillsForLevelUp`: kinds of all
Expert-level entries, then — only when the roster is full (`HEROESMAXSKILL <= Count()`) —
every kind of `secskills` currently at `Level::NONE`. -/
def levelUpExclusions (s : SkillState) : List ℤ :=
  ((s.filter (fun e => e.level == 3)).map Sec.kind)
    ++ (if HEROESMAXSKILL ≤ countValid s then
          secskills.filter (fun k => getLevel s k == 0)
        else [])

/-- Embeds `Skill::SecSkills::FindSkillsForLevelUp`: pick up to two level-up proposals.
`sec1` and `sec2` are the caller-supplied output parameters (passed by reference);
the function returns their final values. -/
def findSkillsForLevelUp (w : ℤ → Nat) (s : SkillState) (seed1 seed2 : Nat)
    (sec1 sec2 : Sec) : Sec × Sec :=
  let exclude := levelUpExclusions s
  let sec1a := sec1.setSkill (secondaryPriorityFromRace w exclude seed1)
  if sec1a.kind ≠ 0 then
    let sec2a := sec2.setSkill (secondaryPriorityFromRace w (exclude ++ [sec1a.kind]) seed2)
    let sec1b := (sec1a.setLevel (getLevel s sec1a.kind)).nextLevel
    let sec2b := (sec2a.setLevel (getLevel s sec2a.kind)).nextLevel
    (sec1b, sec2b)
  else (sec1a, sec2)

/-- A state-threaded read: `GetLevel` on a `const` container returns its result and
leaves the container as the embedding received it. -/
def getLevelSt (s : SkillState) (k : ℤ) : ℤ × SkillState := (getLevel s k, s)

/-- A state-threaded read: building the exclusion list only scans the container. -/
def exclusionsSt (s : SkillState) : List ℤ × SkillState := (levelUpExclusions s, s)

/-- Embeds `Skill::SecSkills::FindSkillsForLevelUp` with the receiver state threaded through
every access, so that the frame effect of the call on the container is observable:
the final component is the container's entry sequence after the call. -/
def findSkillsForLevelUpSt (w : ℤ → Nat) (s0 : SkillState) (seed1 seed2 : Nat)
    (sec1 sec2 : Sec) : Sec × Sec × SkillState :=
  let r0 := exclusionsSt s0
  let exclude := r0.1
  let sec1a := sec1.setSkill (secondaryPriorityFromRace w exclude seed1)
  if sec1a.kind ≠ 0 then
    let sec2a := sec2.setSkill (secondaryPriorityFromRace w (exclude ++ [sec1a.kind]) seed2)
    let r1 := getLevelSt r0.2 sec1a.kind
    let r2 := getLevelSt r1.2 sec2a.kind
    ((sec1a.setLevel r1.1).nextLevel, (sec2a.setLevel r2.1).nextLevel, r2.2)
  else (sec1a, sec2, r0.2)

/-- The external context read by the necromancy lookups: the kingdom's count of built
necromancy shrines, the presence of the `NECROMANCY_SKILL` bonus artifact in the hero's
bag, and the hero's current Necromancy secondary-skill value (`GetSecondaryValues`). -/
structure NecroCtx where
  shrineCount : Nat
  necroArtifact : Bool
  necroSkillValue : Nat

/-- Embeds `Skill::GetNecromancyBonus`: shrine count plus one for the bonus artifact, capped at 7. -/
def getNecromancyBonus (h : NecroCtx) : Nat :=
  let artifactEffect := if h.necroArtifact then 1 else 0
  min 7 (h.shrineCount + artifactEffect)

/-- Embeds `Skill::GetNecromancyPercent`: the hero's Necromancy skill value plus 10 per bonus
point, capped at 100. -/
def getNecromancyPercent (h : NecroCtx) : Nat :=
  let percent := h.necroSkillValue + 10 * getNecromancyBonus h
  min percent 100

/-- One row of the `spellstats_t spells[]` table from spell.cpp, restricted to the
fields the verified operations read: school of magic (0 = NO_SCHOOL, 1 = EARTH_MAGIC,
2 = AIR_MAGIC, 3 = FIRE_MAGIC, 4 = WATER_MAGIC), base spell-point cost, the 4-entry
per-school-level discount schedule, and the spell-specific extra value. -/
structure SpellRow where
  school : Nat
  cost : Nat
  disc : List Nat
  extra : Nat
deriving DecidableEq, Repr

/-- The static `spells[]` table from spell.cpp, in declaration order; the position of a
row is the spell's id (NONE = 0, FIREBALL = 1, …, SETWGUARDIAN = 65, RANDOM = 66 …
RANDOM5 = 71, PETRIFY = 72). -/
def spellsTable : List SpellRow :=
  [ ⟨0, 0, [0, 0, 0, 0], 0⟩,      -- 0 NONE "Unknown"
    ⟨3, 9, [0, 2, 2, 2], 10⟩,     -- 1 FIREBALL
    ⟨3, 15, [0, 3, 3, 3], 10⟩,    -- 2 FIREBLAST
    ⟨2, 10, [0, 3, 3, 3], 25⟩,    -- 3 LIGHTNINGBOLT
    ⟨2, 24, [0, 4, 4, 4], 40⟩,    -- 4 CHAINLIGHTNING
    ⟨4, 15, [0, 3, 9, 12], 0⟩,    -- 5 TELEPORT
    ⟨4, 6, [0, 1, 1, 1], 5⟩,      -- 6 CURE
    ⟨4, 15, [0, 5, 5, 5], 5⟩,     -- 7 MASSCURE
    ⟨1, 12, [0, 4, 4, 4], 50⟩,    -- 8 RESURRECT
    ⟨1, 20, [0, 4, 4, 4], 50⟩,    -- 9 RESURRECTTRUE
    ⟨2, 6, [0, 1, 1, 1], 2⟩,      -- 10 HASTE
    ⟨2, 10, [0, 2, 2, 2], 2⟩,     -- 11 MASSHASTE
    ⟨1, 6, [0, 1, 1, 1], 0⟩,      -- 12 SLOW
    ⟨1, 15, [0, 3, 3, 3], 0⟩,     -- 13 MASSSLOW
    ⟨3, 10, [0, 2, 2, 2], 0⟩,     -- 14 BLIND
    ⟨4, 5, [0, 1, 1, 1], 0⟩,      -- 15 BLESS
    ⟨4, 12, [0, 3, 3, 3], 0⟩,     -- 16 MASSBLESS
    ⟨1, 3, [0, 1, 1, 1], 3⟩,      -- 17 STONESKIN
    ⟨1, 6, [0, 2, 2, 2], 5⟩,      -- 18 STEELSKIN
    ⟨3, 6, [0, 1, 1, 1], 0⟩,      -- 19 CURSE
    ⟨3, 12, [0, 2, 2, 2], 0⟩,     -- 20 MASSCURSE
    ⟨2, 12, [0, 3, 3, 3], 10⟩,    -- 21 HOLYWORD
    ⟨2, 15, [0, 3, 3, 3], 20⟩,    -- 22 HOLYSHOUT
    ⟨1, 15, [0, 3, 3, 3], 0⟩,     -- 23 ANTIMAGIC
    ⟨4, 5, [0, 1, 1, 1], 0⟩,      -- 24 DISPEL
    ⟨4, 12, [0, 3, 3, 3], 0⟩,     -- 25 MASSDISPEL
    ⟨2, 3, [0, 1, 1, 1], 10⟩,     -- 26 ARROW
    ⟨3, 12, [0, 4, 4, 4], 0⟩,     -- 27 BERSERKER
    ⟨3, 24, [0, 4, 4, 4], 50⟩,    -- 28 ARMAGEDDON
    ⟨3, 20, [0, 5, 5, 5], 25⟩,    -- 29 ELEMENTALSTORM
    ⟨1, 16, [0, 4, 4, 4], 25⟩,    -- 30 METEORSHOWER
    ⟨3, 9, [0, 3, 3, 3], 0⟩,      -- 31 PARALYZE
    ⟨2, 18, [0, 3, 3, 3], 25⟩,    -- 32 HYPNOTIZE
    ⟨4, 8, [0, 2, 2, 2], 20⟩,     -- 33 COLDRAY
    ⟨4, 9, [0, 3, 3, 3], 10⟩,     -- 34 COLDRING
    ⟨1, 7, [0, 2, 2, 2], 3⟩,      -- 35 DISRUPTINGRAY
    ⟨1, 6, [0, 1, 1, 1], 5⟩,      -- 36 DEATHRIPPLE
    ⟨1, 10, [0, 2, 2, 2], 10⟩,    -- 37 DEATHWAVE
    ⟨3, 6, [0, 1, 1, 1], 5⟩,      -- 38 DRAGONSLAYER
    ⟨3, 5, [0, 1, 1, 1], 3⟩,      -- 39 BLOODLUST
    ⟨1, 15, [0, 3, 3, 3], 50⟩,    -- 40 ANIMATEDEAD
    ⟨4, 25, [0, 5, 5, 5], 0⟩,     -- 41 MIRRORIMAGE
    ⟨1, 5, [0, 2, 2, 2], 2⟩,      -- 42 SHIELD
    ⟨1, 7, [0, 2, 2, 2], 0⟩,      -- 43 MASSSHIELD
    ⟨1, 30, [0, 10, 10, 10], 3⟩,  -- 44 SUMMONEELEMENT
    ⟨2, 30, [0, 10, 10, 10], 3⟩,  -- 45 SUMMONAELEMENT
    ⟨3, 30, [0, 10, 10, 10], 3⟩,  -- 46 SUMMONFELEMENT
    ⟨4, 30, [0, 10, 10, 10], 3⟩,  -- 47 SUMMONWELEMENT
    ⟨1, 15, [0, 5, 5, 5], 0⟩,     -- 48 EARTHQUAKE
    ⟨1, 1, [0, 1, 1, 1], 0⟩,      -- 49 VIEWMINES
    ⟨1, 1, [0, 1, 1, 1], 0⟩,      -- 50 VIEWRESOURCES
    ⟨2, 2, [0, 1, 1, 1], 0⟩,      -- 51 VIEWARTIFACTS
    ⟨2, 2, [0, 1, 1, 1], 0⟩,      -- 52 VIEWTOWNS
    ⟨2, 2, [0, 1, 1, 1], 0⟩,      -- 53 VIEWHEROES
    ⟨2, 3, [0, 1, 1, 1], 0⟩,      -- 54 VIEWALL
    ⟨4, 3, [0, 2, 2, 2], 0⟩,      -- 55 IDENTIFYHERO
    ⟨4, 5, [0, 3, 3, 3], 0⟩,      -- 56 SUMMONBOAT
    ⟨2, 10, [0, 0, 0, 0], 0⟩,     -- 57 DIMENSIONDOOR
    ⟨1, 10, [0, 0, 0, 0], 0⟩,     -- 58 TOWNGATE
    ⟨1, 20, [0, 0, 0, 0], 0⟩,     -- 59 TOWNPORTAL
    ⟨2, 6, [0, 0, 0, 0], 3⟩,      -- 60 VISIONS
    ⟨0, 8, [0, 0, 0, 0], 4⟩,      -- 61 HAUNT
    ⟨1, 15, [0, 5, 5, 5], 4⟩,     -- 62 SETEGUARDIAN
    ⟨2, 15, [0, 5, 5, 5], 4⟩,     -- 63 SETAGUARDIAN
    ⟨3, 15, [0, 5, 5, 5], 4⟩,     -- 64 SETFGUARDIAN
    ⟨4, 15, [0, 5, 5, 5], 4⟩,     -- 65 SETWGUARDIAN
    ⟨0, 1, [0, 0, 0, 0], 0⟩,      -- 66 RANDOM
    ⟨0, 1, [0, 0, 0, 0], 0⟩,      -- 67 RANDOM1
    ⟨0, 1, [0, 0, 0, 0], 0⟩,      -- 68 RANDOM2
    ⟨0, 1, [0, 0, 0, 0], 0⟩,      -- 69 RANDOM3
    ⟨0, 1, [0, 0, 0, 0], 0⟩,      -- 70 RANDOM4
    ⟨0, 1, [0, 0, 0, 0], 0⟩,      -- 71 RANDOM5
    ⟨0, 1, [0, 0, 0, 0], 0⟩ ]     -- 72 PETRIFY

/-- Table lookup for a spell id. -/
def spellRow (id : Nat) : SpellRow := spellsTable.getD id ⟨0, 0, [0, 0, 0, 0], 0⟩

/-- Embeds `Spell::spellPoints()` without a caster: the table base cost. -/
def spellPointsBase (id : Nat) : Nat := (spellRow id).cost

/-- Embeds `Spell::ExtraValue`. -/
def extraValue (id : Nat) : Nat := (spellRow id).extra

/-- Embeds `Spell::Damage`: the extra value for the fixed damage-classified ids, else 0. -/
def damageOf (id : Nat) : Nat :=
  match id with
  | 26 | 1 | 2 | 3 | 34 | 37 | 21 | 4 | 28 | 29 | 30 | 33 | 22 | 36 => extraValue id
  | _ => 0

/-- Embeds `Spell::Resurrect`: the extra value for ANIMATEDEAD, RESURRECT and
RESURRECTTRUE, else 0. -/
def resurrectOf (id : Nat) : Nat :=
  match id with
  | 40 | 8 | 9 => extraValue id
  | _ => 0

/-- Embeds `Spell::isDamage` (declared in the excerpt's header): a spell is a damage
spell when its `Damage()` amount is non-zero. -/
def isDamage (id : Nat) : Bool := damageOf id != 0

/-- Embeds `Spell::isResurrect` (declared in the excerpt's header): non-zero `Resurrect()`. -/
def isResurrect (id : Nat) : Bool := resurrectOf id != 0

/-- Embeds `Spell::isMassActions`: the seven mass-effect spells. -/
def isMassActions (id : Nat) : Bool :=
  match id with
  | 7 | 11 | 13 | 16 | 20 | 25 | 43 => true
  | _ => false

/-- Embeds `Spell::isSummon`: the four Summon Elemental spells. -/
def isSummon (id : Nat) : Bool :=
  match id with
  | 44 | 45 | 46 | 47 => true
  | _ => false

/-- Embeds `Spell::isMindInfluence`: BLIND, PARALYZE, BERSERKER, HYPNOTIZE. -/
def isMindInfluence (id : Nat) : Bool :=
  match id with
  | 14 | 31 | 27 | 32 => true
  | _ => false

/-- Modelled from the spec: `Spell::isAdventure` (its definition is in code missing
from the excerpt) — the travel, detection, boat-summon and vision spells (§4.4):
the six View spells, Identify Hero, Summon Boat, Dimension Door, Town Gate,
Town Portal and Visions. -/
def isAdventure (id : Nat) : Bool :=
  match id with
  | 49 | 50 | 51 | 52 | 53 | 54 | 55 | 56 | 57 | 58 | 59 | 60 => true
  | _ => false

/-- The artifact cost-reduction bonus categories distinguished by `Spell::spellPoints`. -/
inductive ArtCat where
  | bless
  | summon
  | curse
  | mind
deriving DecidableEq, Repr

/-- The category switch at the top of `Spell::spellPoints( const HeroBase * )`:
bless family, summon family, curse family, then mind-influence spells; anything
else has no category. -/
def artifactCategory (id : Nat) : Option ArtCat :=
  match id with
  | 15 | 16 => some .bless
  | 44 | 45 | 46 | 47 => some .summon
  | 19 | 20 => some .curse
  | _ => if isMindInfluence id then some .mind else none

/-- The caster state read by `Spell::spellPoints`: per-school mastery level
(`Level::NONE` … `Level::EXPERT`, used to index the discount schedule) and the
ordered stacked percentage lists returned by
`BagArtifacts::getTotalArtifactMultipliedPercent` for each bonus category. -/
structure Caster where
  schoolLevel : Nat → Fin 4
  reductionPercent : ArtCat → List ℤ

/-- Modelled from the spec: `HeroBase::GetSpellCostReduction` (hero code missing from
the excerpt) — the flat school discount, looked up in the spell's 4-entry discount
schedule at the caster's mastery level in the spell's school (§4.5 step 2). -/
def getSpellCostReduction (c : Caster) (id : Nat) : Nat :=
  (spellRow id).disc.getD (c.schoolLevel (spellRow id).school).val 0

/-- Embeds `Spell::spellPoints( const HeroBase * hero )` with a non-null caster:
subtract the school discount from the base cost; with no artifact category the
(int32) cost is returned directly as a `uint32_t`; with a category, apply each stacked
percentage as `cost = cost * (100 - p) / 100` (C++ truncating integer division) and
floor the result at 1. -/
def spellPointsWithHero (c : Caster) (id : Nat) : ℤ :=
  let spellCost : ℤ := ((spellRow id).cost : ℤ) - (getSpellCostReduction c id : ℤ)
  match artifactCategory id with
  | none => spellCost % (2 ^ 32)
  | some cat =>
    let reduced := (c.reductionPercent cat).foldl
      (fun acc v => Int.tdiv (acc * (100 - v)) 100) spellCost
    if reduced < 1 then 1 else reduced

/-- The diminishing-returns modifier of `Spell::getStrategicValue`:
1 when `casts == 1`, else `casts - 0.05 * casts * casts` (double arithmetic
embedded as exact rationals). -/
def amountModifier (casts : Nat) : ℚ :=
  if casts = 1 then 1 else (casts : ℚ) - (1 / 20 : ℚ) * (casts : ℚ) * (casts : ℚ)

/-- Embeds `Spell::getStrategicValue`: number of affordable casts capped at 10, the
diminishing-returns modifier, then the classification branches in source order
(adventure, damage, high-impact, summon, default). The external
`Monster(id).GetMonsterStrength()` estimator is abstracted as `ms`. -/
def getStrategicValue (ms : Nat → ℚ) (id : Nat) (armyStrength : ℚ)
    (currentSpellPoints : Nat) (spellPower schoolSpellModifier : ℤ) : ℚ :=
  let spellCost := spellPointsBase id
  let casts : Nat := if spellCost ≠ 0 then min 10 (currentSpellPoints / spellCost) else 0
  let am := amountModifier casts
  if isAdventure id then
    if id = 57 then 500 * am
    else if id = 58 ∨ id = 59 then 250 * am
    else if id = 54 then 500
    else 0
  else if isDamage id then
    am * ((damageOf id : ℚ) * (spellPower : ℚ) + (schoolSpellModifier : ℚ))
  else if isResurrect id || isMassActions id || id == 14 || id == 31 then
    armyStrength * (1 / 10 : ℚ) * am
  else if isSummon id then
    ms id * (extraValue id : ℚ) * (spellPower : ℚ)
  else
    armyStrength * (1 / 25 : ℚ) * am

/-- The fixed damage-classified spell ids, in the order of the `Spell::Damage` switch:
ARROW, FIREBALL, FIREBLAST, LIGHTNINGBOLT, COLDRING, DEATHWAVE, HOLYWORD,
CHAINLIGHTNING, ARMAGEDDON, ELEMENTALSTORM, METEORSHOWER, COLDRAY, HOLYSHOUT,
DEATHRIPPLE. -/
def damageSpellIds : List Nat := [26, 1, 2, 3, 34, 37, 21, 4, 28, 29, 30, 33, 22, 36]

/-- A caster with Basic mastery in every school and no cost-reduction artifacts. -/
def casterBasicAll : Caster := ⟨fun _ => 1, fun _ => []⟩

/-- A caster with no school mastery and a single 50% cost-reduction artifact in
every category. -/
def casterBlessDiscount : Caster := ⟨fun _ => 0, fun _ => [50]⟩

/-- A skill state whose underlying sequence has 8 slots, 7 of them valid (kinds 1–7 at
Basic) and one the empty sentinel — the "reserved empty slot" scenario of the spec. -/
def reservedState : SkillState :=
  [⟨1, 1⟩, ⟨2, 1⟩, ⟨3, 1⟩, ⟨4, 1⟩, ⟨5, 1⟩, ⟨6, 1⟩, ⟨7, 1⟩, ⟨0, 0⟩]

/-- A race weight table giving the brand-new kind WATERMAGIC = 28 weight 10 and every
other kind weight 0. -/
def newKindWeight : ℤ → Nat := fun k => if k = 28 then 10 else 0

/-! ### Helper lemmas about the skill container -/

theorem updateFirst_length (p : Sec → Bool) (f : Sec → Sec) :
    ∀ s : SkillState, (updateFirst p f s).length = s.length
  | [] => rfl
  | e :: t => by
    unfold updateFirst
    split
    · rfl
    · simp [updateFirst_length p f t]

theorem countValid_le_length (s : SkillState) : countValid s ≤ s.length :=
  List.length_filter_le _ s

theorem map_kind_updateFirst (p : Sec → Bool) (f : Sec → Sec)
    (hf : ∀ e, (f e).kind = e.kind) :
    ∀ s : SkillState, (updateFirst p f s).map Sec.kind = s.map Sec.kind
  | [] => rfl
  | e :: t => by
    unfold updateFirst
    split
    · simp [hf]
    · simp [map_kind_updateFirst p f hf t]

theorem mem_kind_updateFirst_const (p : Sec → Bool) (sk : Sec) :
    ∀ (s : SkillState) (x : ℤ), x ∈ (updateFirst p (fun _ => sk) s).map Sec.kind →
      x = sk.kind ∨ x ∈ s.map Sec.kind
  | [], _, hx => by simp [updateFirst] at hx
  | e :: t, x, hx => by
    unfold updateFirst at hx
    rw [List.map_cons, List.mem_cons]
    split at hx
    · rw [List.map_cons, List.mem_cons] at hx
      rcases hx with h | h
      · exact Or.inl h
      · exact Or.inr (Or.inr h)
    · rw [List.map_cons, List.mem_cons] at hx
      rcases hx with h | h
      · exact Or.inr (Or.inl h)
      · rcases mem_kind_updateFirst_const p sk t x h with h' | h'
        · exact Or.inl h'
        · exact Or.inr (Or.inr h')

theorem nodup_kind_updateFirst_const (p : Sec → Bool) (sk : Sec) :
    ∀ s : SkillState, sk.kind ∉ s.map Sec.kind → (s.map Sec.kind).Nodup →
      ((updateFirst p (fun _ => sk) s).map Sec.kind).Nodup
  | [], _, _ => by simp [updateFirst]
  | e :: t, hmem, hnd => by
    simp only [List.map_cons, List.nodup_cons] at hnd
    have hsk_ne : sk.kind ≠ e.kind := fun h => hmem (by simp [h])
    have hsk_t : sk.kind ∉ t.map Sec.kind := fun h => hmem (by simp [h])
    unfold updateFirst
    split
    · simp only [List.map_cons, List.nodup_cons]
      exact ⟨hsk_t, hnd.2⟩
    · simp only [List.map_cons, List.nodup_cons]
      refine ⟨fun h => ?_, nodup_kind_updateFirst_const p sk t hsk_t hnd.2⟩
      rcases mem_kind_updateFirst_const p sk t e.kind h with h' | h'
      · exact hsk_ne h'.symm
      · exact hnd.1 h'

theorem addSkill_nodup_kinds (s : SkillState) (sk : Sec)
    (h : (s.map Sec.kind).Nodup) : ((addSkill s sk).map Sec.kind).Nodup := by
  unfold addSkill
  split
  · split
    · rw [map_kind_updateFirst (fun e => e.kind == sk.kind) (fun e => e.setLevel sk.level)
        (fun e => rfl)]
      exact h
    · rename_i hnone
      have hnot : sk.kind ∉ s.map Sec.kind := by
        intro hmem
        rcases List.mem_map.mp hmem with ⟨e, he, hk⟩
        exact hnone (List.any_eq_true.mpr ⟨e, he, by simp [hk]⟩)
      split
      · exact nodup_kind_updateFirst_const _ _ s hnot h
      · split
        · simp only [List.map_append, List.map_cons, List.map_nil]
          rw [List.nodup_append]
          exact ⟨h, List.nodup_singleton _, by simpa using hnot⟩
        · exact h
  · exact h

theorem applyOp_length_le (s : SkillState) (op : SkillOp) (h : s.length ≤ 8) :
    (applyOp s op).length ≤ 8 := by
  cases op with
  | add sk =>
    simp only [applyOp]
    unfold addSkill
    split
    · split
      · rw [updateFirst_length]; exact h
      · split
        · rw [updateFirst_length]; exact h
        · split
          · rename_i hlt
            simp only [List.length_append, List.length_cons, List.length_nil]
            unfold HEROESMAXSKILL at hlt
            omega
          · exact h
    · exact h
  | fill sk =>
    simp only [applyOp]
    unfold fillMax
    split
    · rename_i hlt
      simp only [List.length_append, List.length_replicate]
      unfold HEROESMAXSKILL at hlt ⊢
      omega
    · exact h

theorem foldl_applyOp_length_le :
    ∀ (ops : List SkillOp) (s : SkillState), s.length ≤ 8 →
      (ops.foldl applyOp s).length ≤ 8
  | [], _, hs => hs
  | op :: t, s, hs =>
    foldl_applyOp_length_le t (applyOp s op) (applyOp_length_le s op hs)

theorem foldl_addOnly_nodup :
    ∀ (ops : List SkillOp), (∀ op ∈ ops, op.isAdd = true) →
      ∀ s : SkillState, (s.map Sec.kind).Nodup →
        ((ops.foldl applyOp s).map Sec.kind).Nodup
  | [], _, _, hs => hs
  | op :: t, hops, s, hs => by
    have h1 : op.isAdd = true := hops op (List.mem_cons_self _ _)
    cases op with
    | add sk =>
      exact foldl_addOnly_nodup t (fun o ho => hops o (List.mem_cons_of_mem _ ho)) _
        (addSkill_nodup_kinds s sk hs)
    | fill sk => simp [SkillOp.isAdd] at h1

theorem uniqueValid_of_nodup_kinds (s : SkillState)
    (h : (s.map Sec.kind).Nodup) : uniqueValidKinds s :=
  List.Nodup.sublist (List.Sublist.map _ (List.filter_sublist s)) h

/-! ### Helper lemmas about the weighted selector and the level-up planner -/

theorem pickLoop_mem :
    ∀ (l : List (ℤ × Nat)) (r : Nat), pickLoop l r = 0 ∨ pickLoop l r ∈ l.map Prod.fst
  | [], _ => Or.inl rfl
  | (v, wt) :: t, r => by
    unfold pickLoop
    split
    · exact Or.inr (by simp)
    · rcases pickLoop_mem t (r - wt) with h | h
      · exact Or.inl h
      · exact Or.inr (by simp [h])

theorem secskills_mem_bounds : ∀ k ∈ secskills, 0 ≤ k ∧ k ≤ 28 ∧ k ≠ 0 := by decide

theorem priority_cases (w : ℤ → Nat) (exclude : List ℤ) (seed : Nat) :
    secondaryPriorityFromRace w exclude seed = 0 ∨
      (secondaryPriorityFromRace w exclude seed ∈ secskills ∧
        secondaryPriorityFromRace w exclude seed ∉ exclude) := by
  simp only [secondaryPriorityFromRace, weightedPick]
  split
  · exact Or.inl rfl
  · split
    · exact Or.inl rfl
    · rcases pickLoop_mem
        (((secskills.filter (fun k => decide (k ∉ exclude))).filter
          (fun k => w k != 0)).map (fun k => (k, w k))) _ with h | h
      · exact Or.inl h
      · refine Or.inr ?_
        rw [List.map_map] at h
        have h' := List.mem_map.mp h
        rcases h' with ⟨k, hk, hke⟩
        have hk1 := List.mem_filter.mp hk
        have hk2 := List.mem_filter.mp hk1.1
        refine ⟨?_, ?_⟩
        · rw [← hke]; exact hk2.1
        · rw [← hke]; simpa using hk2.2

theorem setSkill_kind_of_pick (e : Sec) (p : ℤ) (h : p = 0 ∨ p ∈ secskills) :
    (e.setSkill p).kind = p := by
  unfold Sec.setSkill MAXSECONDARYSKILL
  rcases h with rfl | h
  · simp
  · have := secskills_mem_bounds p h
    simp only
    rw [if_pos ⟨this.1, this.2.1⟩]

theorem kind_setLevel (e : Sec) (l : ℤ) : (e.setLevel l).kind = e.kind := rfl

theorem kind_nextLevel (e : Sec) : e.nextLevel.kind = e.kind := by
  unfold Sec.nextLevel
  split
  · rfl
  · split
    · rfl
    · split <;> rfl

theorem expert_mem_exclusions (s : SkillState) (K : ℤ)
    (h : ∃ e ∈ s, e.kind = K ∧ e.level = 3) : K ∈ levelUpExclusions s := by
  rcases h with ⟨e, he, hk, hl⟩
  unfold levelUpExclusions
  refine List.mem_append_left _ ?_
  exact List.mem_map.mpr ⟨e, List.mem_filter.mpr ⟨he, by simp [hl]⟩, hk⟩

theorem findSkills_none_eq (w : ℤ → Nat) (s : SkillState) (seed1 seed2 : Nat)
    (sec1 sec2 : Sec)
    (h : secondaryPriorityFromRace w (levelUpExclusions s) seed1 = 0) :
    findSkillsForLevelUp w s seed1 seed2 sec1 sec2 = (⟨0, sec1.level⟩, sec2) := by
  simp only [findSkillsForLevelUp, h]
  simp [Sec.setSkill, MAXSECONDARYSKILL]

/-! ### Claim theorems -/

/-- C2, counterexample: from the empty container, the single call
`FillMax((PATHFINDING, BASIC))` produces a reachable state with eight valid entries
that all share the kind PATHFINDING, so the claimed kind-uniqueness fails for
sequences that include `FillMax`. -/
theorem fillMaxBreaksKindUniqueness :
    ¬ uniqueValidKinds (runOps [SkillOp.fill ⟨1, 1⟩]) := by decide

/-- C2 (amended): for every sequence of `AddSkill`/`FillMax` calls starting from the
empty container, `Count()` never exceeds 8; and for every sequence consisting of
`AddSkill` calls only, no two valid entries ever share a skill kind (the kind-uniqueness
part fails once `FillMax` with a valid entry is allowed, which pads duplicate copies). -/
theorem skillRosterCapacityAndUniqueness (ops : List SkillOp) :
    countValid (runOps ops) ≤ 8 ∧
    ((∀ op ∈ ops, op.isAdd = true) → uniqueValidKinds (runOps ops)) := by
  constructor
  · exact le_trans (countValid_le_length _) (foldl_applyOp_length_le ops [] (by simp))
  · intro hadd
    exact uniqueValid_of_nodup_kinds _ (foldl_addOnly_nodup ops hadd [] (by simp))

/-- Witness for C2's theorem at the concrete call sequence `[AddSkill((1, 1))]`. -/
theorem skillRosterCapacityAndUniqueness_witness :
    countValid (runOps [SkillOp.add ⟨1, 1⟩]) ≤ 8 ∧
      uniqueValidKinds (runOps [SkillOp.add ⟨1, 1⟩]) :=
  ⟨(skillRosterCapacityAndUniqueness [SkillOp.add ⟨1, 1⟩]).1,
   (skillRosterCapacityAndUniqueness [SkillOp.add ⟨1, 1⟩]).2 (by decide)⟩

/-- C5, counterexample: with all race weights zero, the first weighted pick is the
`UNKNOWN` sentinel, yet a second output parameter passed in as (ARCHERY, BASIC) is left
completely untouched by `FindSkillsForLevelUp` — it is not reset to "none". -/
theorem noneFirstPickSecondOutputUntouched :
    secondaryPriorityFromRace (fun _ => 0) (levelUpExclusions []) 0 = 0 ∧
    (findSkillsForLevelUp (fun _ => 0) [] 0 0 Sec.empty ⟨1, 1⟩).2 = ⟨1, 1⟩ ∧
    (findSkillsForLevelUp (fun _ => 0) [] 0 0 Sec.empty ⟨1, 1⟩).2.kind ≠ 0 := by
  decide

/-- C5 (amended): if the first weighted pick is the `UNKNOWN` sentinel, the call sets
the first output's kind to `UNKNOWN` (leaving its level field as it was) and leaves
the second output exactly as it was passed in; in particular, when both outputs are
passed in as default-constructed (UNKNOWN, NONE) values, both are "none" after the
call. -/
theorem noneFirstPickResult (w : ℤ → Nat) (s : SkillState) (seed1 seed2 : Nat)
    (sec1 sec2 : Sec)
    (h : secondaryPriorityFromRace w (levelUpExclusions s) seed1 = 0) :
    findSkillsForLevelUp w s seed1 seed2 sec1 sec2 = (⟨0, sec1.level⟩, sec2) :=
  findSkills_none_eq w s seed1 seed2 sec1 sec2 h

/-- Witness for C5's theorem: all-zero weights with default-constructed outputs; both
outputs are the "none" value after the call. -/
theorem noneFirstPickResult_witness :
    findSkillsForLevelUp (fun _ => 0) [] 0 0 Sec.empty Sec.empty =
      (Sec.empty, Sec.empty) :=
  noneFirstPickResult (fun _ => 0) [] 0 0 Sec.empty Sec.empty (by decide)

/-- C9: `GetNecromancyBonus` is `min(7, shrineCount + (1 if the necromancy bonus
artifact is present else 0))`, and `GetNecromancyPercent` is `min(100, Necromancy
secondary-skill value + 10 * GetNecromancyBonus)`. -/
theorem necromancyBonusAndPercent (h : NecroCtx) :
    getNecromancyBonus h = min 7 (h.shrineCount + (if h.necroArtifact then 1 else 0)) ∧
    getNecromancyPercent h = min 100 (h.necroSkillValue + 10 * getNecromancyBonus h) :=
  ⟨rfl, Nat.min_comm _ _⟩

/-- C10: `FindSkillsForLevelUp` never modifies the container it is called on — with the
receiver state threaded through every access, the state after the call equals the state
before it, and the two outputs agree with the pure embedding; applying a proposal
requires a separate `AddSkill` call (`addSkill` is a distinct operation on the state). -/
theorem findSkillsDoesNotMutateState (w : ℤ → Nat) (s : SkillState) (seed1 seed2 : Nat)
    (sec1 sec2 : Sec) :
    (findSkillsForLevelUpSt w s seed1 seed2 sec1 sec2).2.2 = s ∧
    ((findSkillsForLevelUpSt w s seed1 seed2 sec1 sec2).1,
      (findSkillsForLevelUpSt w s seed1 seed2 sec1 sec2).2.1) =
      findSkillsForLevelUp w s seed1 seed2 sec1 sec2 := by
  simp only [findSkillsForLevelUpSt, findSkillsForLevelUp, exclusionsSt, getLevelSt]
  constructor <;> split <;> rfl

/-- C1, counterexample: VIEWMINES (base cost 1, discount schedule {0,1,1,1}) cast by a
hero with Basic mastery in every school and an empty artifact bag: the school discount
brings the cost to 0, no artifact bonus category applies, and the cost is returned
without the floor — `spellPoints` yields 0, not at least 1. -/
theorem spellPointsZeroForViewMines : spellPointsWithHero casterBasicAll 49 = 0 := by
  decide

/-- C1 (amended): the floor at 1 spell point is applied only on the code path for spells
with an artifact cost-reduction category (bless family, summon family, curse family,
mind-influence); for every such spell and every caster `spellPoints` returns at least 1.
For spells with no category the school flat discount alone can drive the result to 0. -/
theorem spellPointsFloorWithCategory (c : Caster) (id : Nat) (cat : ArtCat)
    (h : artifactCategory id = some cat) : 1 ≤ spellPointsWithHero c id := by
  simp only [spellPointsWithHero, h]
  split <;> omega

/-- Witness for C1's theorem: BLESS with a 50% bless-family discount artifact. -/
theorem spellPointsFloorWithCategory_witness :
    1 ≤ spellPointsWithHero casterBlessDiscount 15 :=
  spellPointsFloorWithCategory casterBlessDiscount 15 ArtCat.bless (by decide)

/-- C6: for each of the four Summon Elemental spells, `getStrategicValue` is exactly
`monsterStrength(spell) * extraValue(spell) * spellPower`; the result does not depend on
`currentSpellPoints` or `armyStrength` at all. -/
theorem summonStrategicValue (ms : Nat → ℚ) (id : Nat)
    (h : id = 44 ∨ id = 45 ∨ id = 46 ∨ id = 47) (armyStrength : ℚ)
    (currentSpellPoints : Nat) (spellPower schoolSpellModifier : ℤ) :
    getStrategicValue ms id armyStrength currentSpellPoints spellPower
        schoolSpellModifier =
      ms id * (extraValue id : ℚ) * (spellPower : ℚ) := by
  rcases h with rfl | rfl | rfl | rfl <;> rfl

/-- Witness for C6's theorem at SUMMONEELEMENT with concrete caster numbers. -/
theorem summonStrategicValue_witness :
    getStrategicValue (fun _ => 7) 44 123 999 2 5 = 7 * (extraValue 44 : ℚ) * 2 :=
  summonStrategicValue (fun _ => 7) 44 (Or.inl rfl) 123 999 2 5

theorem damage_value_eq (ms : Nat → ℚ) (id : Nat) (h : id ∈ damageSpellIds)
    (armyStrength : ℚ) (sp : Nat) (power modifier : ℤ) :
    getStrategicValue ms id armyStrength sp power modifier =
      amountModifier
          (if 0 < spellPointsBase id then min 10 (sp / spellPointsBase id) else 0) *
        ((damageOf id : ℚ) * (power : ℚ) + (modifier : ℚ)) := by
  fin_cases h <;> rfl

/-- C7: for every damage spell, `getStrategicValue` equals
`amountModifier * (damageAmount * spellPower + schoolSpellModifier)` where
`casts = min(10, currentSpellPoints / baseCost)` when the base cost is positive (else 0)
and `amountModifier` is 1 at one cast, else `casts - 0.05 * casts^2`. -/
theorem damageStrategicValue (ms : Nat → ℚ) (id : Nat) (h : id ∈ damageSpellIds)
    (armyStrength : ℚ) (sp : Nat) (power modifier : ℤ) :
    getStrategicValue ms id armyStrength sp power modifier =
      amountModifier
          (if 0 < spellPointsBase id then min 10 (sp / spellPointsBase id) else 0) *
        ((damageOf id : ℚ) * (power : ℚ) + (modifier : ℚ)) :=
  damage_value_eq ms id h armyStrength sp power modifier

/-- Witness for C7's theorem: LIGHTNINGBOLT at spell power 20 with modifier 20. -/
theorem damageStrategicValue_witness :
    getStrategicValue (fun _ => 0) 3 0 100 20 20 =
      amountModifier
          (if 0 < spellPointsBase 3 then min 10 (100 / spellPointsBase 3) else 0) *
        ((damageOf 3 : ℚ) * 20 + 20) :=
  damageStrategicValue (fun _ => 0) 3 (by decide) 0 100 20 20

theorem amountModifier_ten : amountModifier 10 = 5 := by
  norm_num [amountModifier]

theorem amountModifier_two : amountModifier 2 = 9 / 5 := by
  norm_num [amountModifier]

/-- C8, counterexample: for MAGICARROW with spell power 0 and school modifier 0 the
strategic value is 0 at both 10 casts (30 spell points, cost 3) and 2 casts (6 points),
so the value at casts = 10 is not strictly less than 5 times the value at casts = 2. -/
theorem concavityFailsAtZeroValue :
    min 10 (30 / spellPointsBase 26) = 10 ∧
    min 10 (6 / spellPointsBase 26) = 2 ∧
    ¬ (getStrategicValue (fun _ => 0) 26 0 30 0 0 <
        5 * getStrategicValue (fun _ => 0) 26 0 6 0 0) := by
  refine ⟨by decide, by decide, ?_⟩
  rw [damage_value_eq (fun _ => 0) 26 (by decide) 0 30 0 0,
      damage_value_eq (fun _ => 0) 26 (by decide) 0 6 0 0]
  norm_num

/-- C8 (amended): `amountModifier` is non-decreasing for casts in [1, 4]; and for a
fixed damage spell whose per-cast value `damageAmount * spellPower + schoolSpellModifier`
is positive, the strategic value at casts = 10 is strictly less than 5 times the value
at casts = 2 (the positivity hypothesis is forced: at value 0 both sides are 0). -/
theorem diminishingReturnsConcavity :
    (∀ c d : Nat, 1 ≤ c → c ≤ d → d ≤ 4 → amountModifier c ≤ amountModifier d) ∧
    (∀ (ms : Nat → ℚ) (id : Nat), id ∈ damageSpellIds →
      ∀ (armyStrength : ℚ) (sp10 sp2 : Nat) (power modifier : ℤ),
        min 10 (sp10 / spellPointsBase id) = 10 →
        min 10 (sp2 / spellPointsBase id) = 2 →
        0 < (damageOf id : ℚ) * (power : ℚ) + (modifier : ℚ) →
        getStrategicValue ms id armyStrength sp10 power modifier <
          5 * getStrategicValue ms id armyStrength sp2 power modifier) := by
  constructor
  · intro c d h1 h2 h3
    have hc4 : c ≤ 4 := le_trans h2 h3
    interval_cases c <;> interval_cases d <;> norm_num [amountModifier]
  · intro ms id h armyStrength sp10 sp2 power modifier h10 h2 hX
    rw [damage_value_eq ms id h armyStrength sp10 power modifier,
        damage_value_eq ms id h armyStrength sp2 power modifier]
    have hbase : 0 < spellPointsBase id := by fin_cases h <;> decide
    rw [if_pos hbase, if_pos hbase, h10, h2, amountModifier_ten, amountModifier_two]
    linarith

/-- C3: if the container holds an entry of kind K at Expert level, then neither proposal
produced by `FindSkillsForLevelUp` (outputs passed in default-constructed, as every
caller does) has kind K; and when both proposals name a skill, their kinds differ. The
race is abstracted by its weight table `w` and both seeds are arbitrary. -/
theorem expertKindNeverProposed (w : ℤ → Nat) (s : SkillState) (seed1 seed2 : Nat)
    (K : ℤ) (hK : K ∈ secskills) (hexp : ∃ e ∈ s, e.kind = K ∧ e.level = 3) :
    (findSkillsForLevelUp w s seed1 seed2 Sec.empty Sec.empty).1.kind ≠ K ∧
    (findSkillsForLevelUp w s seed1 seed2 Sec.empty Sec.empty).2.kind ≠ K ∧
    ((findSkillsForLevelUp w s seed1 seed2 Sec.empty Sec.empty).1.kind ≠ 0 →
      (findSkillsForLevelUp w s seed1 seed2 Sec.empty Sec.empty).2.kind ≠ 0 →
      (findSkillsForLevelUp w s seed1 seed2 Sec.empty Sec.empty).1.kind ≠
        (findSkillsForLevelUp w s seed1 seed2 Sec.empty Sec.empty).2.kind) := by
  have hK0 : K ≠ 0 := (secskills_mem_bounds K hK).2.2
  have hKexcl : K ∈ levelUpExclusions s := expert_mem_exclusions s K hexp
  rcases priority_cases w (levelUpExclusions s) seed1 with h1 | ⟨h1mem, h1not⟩
  · rw [findSkills_none_eq w s seed1 seed2 Sec.empty Sec.empty h1]
    refine ⟨?_, ?_, ?_⟩
    · show (0 : ℤ) ≠ K
      exact fun hc => hK0 hc.symm
    · show (0 : ℤ) ≠ K
      exact fun hc => hK0 hc.symm
    · intro h0
      exact absurd rfl h0
  · set p := secondaryPriorityFromRace w (levelUpExclusions s) seed1 with hp
    have hp1ne : p ≠ 0 := (secskills_mem_bounds _ h1mem).2.2
    have hkind1 : (Sec.empty.setSkill p).kind = p :=
      setSkill_kind_of_pick _ _ (Or.inr h1mem)
    simp only [findSkillsForLevelUp, hkind1]
    rw [if_pos hp1ne]
    set q := secondaryPriorityFromRace w (levelUpExclusions s ++ [p]) seed2 with hq
    rcases priority_cases w (levelUpExclusions s ++ [p]) seed2 with h2 | ⟨h2mem, h2not⟩
    · rw [← hq] at h2
      have hkind2 : (Sec.empty.setSkill q).kind = q := by
        rw [h2]
        exact setSkill_kind_of_pick _ _ (Or.inl rfl)
      refine ⟨?_, ?_, ?_⟩ <;>
        simp only [kind_nextLevel, kind_setLevel, hkind1, hkind2]
      · exact fun hc => h1not (hc ▸ hKexcl)
      · rw [h2]
        exact fun hc => hK0 hc.symm
      · intro _ h0
        rw [h2] at h0
        exact absurd rfl h0
    · rw [← hq] at h2mem h2not
      have hkind2 : (Sec.empty.setSkill q).kind = q :=
        setSkill_kind_of_pick _ _ (Or.inr h2mem)
      refine ⟨?_, ?_, ?_⟩ <;>
        simp only [kind_nextLevel, kind_setLevel, hkind1, hkind2]
      · exact fun hc => h1not (hc ▸ hKexcl)
      · exact fun hc => h2not (hc ▸ List.mem_append_left _ hKexcl)
      · intro _ _ hc
        exact h2not (hc ▸ List.mem_append_right _ (List.mem_singleton.mpr rfl))

/-- Witness for C3's theorem: Leadership (kind 7) at Expert in a one-entry container,
uniform weights 10, seeds 5 and 9. -/
theorem expertKindNeverProposed_witness :
    (findSkillsForLevelUp (fun _ => 10) [⟨7, 3⟩] 5 9 Sec.empty Sec.empty).1.kind ≠ 7 ∧
    (findSkillsForLevelUp (fun _ => 10) [⟨7, 3⟩] 5 9 Sec.empty Sec.empty).2.kind ≠ 7 :=
  ⟨(expertKindNeverProposed (fun _ => 10) [⟨7, 3⟩] 5 9 7 (by decide)
      ⟨⟨7, 3⟩, by simp, rfl, rfl⟩).1,
   (expertKindNeverProposed (fun _ => 10) [⟨7, 3⟩] 5 9 7 (by decide)
      ⟨⟨7, 3⟩, by simp, rfl, rfl⟩).2.1⟩

/-- C4: a kind of the catalog is in the exclusion list built by `FindSkillsForLevelUp`
exactly when it belongs to an Expert-level entry or the roster is full
(`Count() >= 8`) and the kind is currently at level None; and in the concrete 8-slot
state with one empty sentinel slot, `Count()` is 7 (below 8) and the brand-new kind
WATERMAGIC = 28 is proposed through that slot. -/
theorem fullRosterNoneExclusion :
    (∀ (s : SkillState) (k : ℤ), k ∈ secskills →
        (k ∈ levelUpExclusions s ↔
          (∃ e ∈ s, e.level = 3 ∧ e.kind = k) ∨
            (8 ≤ countValid s ∧ getLevel s k = 0))) ∧
    countValid reservedState = 7 ∧
    getLevel reservedState 28 = 0 ∧
    (findSkillsForLevelUp newKindWeight reservedState 0 0 Sec.empty Sec.empty).1.kind
      = 28 := by
  refine ⟨?_, by decide, by decide, by decide⟩
  intro s k hk
  unfold levelUpExclusions
  rw [List.mem_append]
  constructor
  · rintro (h | h)
    · rcases List.mem_map.mp h with ⟨e, he, hke⟩
      have hf := List.mem_filter.mp he
      exact Or.inl ⟨e, hf.1, by simpa using hf.2, hke⟩
    · split at h
      · rename_i hcount
        have hf := List.mem_filter.mp h
        exact Or.inr ⟨hcount, by simpa using hf.2⟩
      · simp at h
  · rintro (⟨e, he, hl, hke⟩ | ⟨hcount, hlev⟩)
    · exact Or.inl (List.mem_map.mpr ⟨e, List.mem_filter.mpr ⟨he, by simp [hl]⟩, hke⟩)
    · refine Or.inr ?_
      rw [if_pos (show HEROESMAXSKILL ≤ countValid s from hcount)]
      exact List.mem_filter.mpr ⟨hk, by simp [hlev]⟩

/-- Witness for C4's theorem: Logistics (kind 3) at Expert is in the exclusion list of
the one-entry container holding it. -/
theorem fullRosterNoneExclusion_witness : (3 : ℤ) ∈ levelUpExclusions [⟨3, 3⟩] :=
  (fullRosterNoneExclusion.1 [⟨3, 3⟩] 3 (by decide)).mpr
    (Or.inl ⟨⟨3, 3⟩, by simp, rfl, rfl⟩)

/-- Witness for C8's theorem: MAGICARROW at spell power 1, modifier 0, with 30 and 6
spell points (10 and 2 casts). -/
theorem diminishingReturnsConcavity_witness :
    amountModifier 2 ≤ amountModifier 3 ∧
    getStrategicValue (fun _ => 0) 26 0 30 1 0 <
      5 * getStrategicValue (fun _ => 0) 26 0 6 1 0 :=
  ⟨diminishingReturnsConcavity.1 2 3 (by norm_num) (by norm_num) (by norm_num),
   diminishingReturnsConcavity.2 (fun _ => 0) 26 (by decide) 0 30 6 1 0 (by decide)
     (by decide)
     (by have hd : damageOf 26 = 10 := by decide
         rw [hd]; norm_num)⟩

end FH
